import Mathlib

/-!
# Verification of the minesweeper web server (src/main.rs)

Shallow embedding of the request handlers and serialization helpers of
`src/main.rs`, together with a model of the `minesweeper` engine crate.
The engine crate is an external dependency whose source is not part of
this repository, so its operations are modelled from the specification
(each such definition is marked `Modelled from the spec:`); the handler
code in `src/main.rs` is translated directly from the source.

Randomness is represented by explicit parameters: the generated session
identifier is an argument of `new_game`, the sampled characters are an
argument of `generate_game_id`, and the randomly drawn mine positions
are an argument of `click_tile` / `Minesweeper.new_with_first_click`.
-/

set_option autoImplicit false

/-- Modelled from the spec: the value of a tile is either a bomb or the
number of adjacent mines (`TileValue` in the `minesweeper` crate, matched
in `serialize_board`). -/
inductive TileValue where
  | bomb
  | number (n : Nat)
deriving DecidableEq, Repr

/-- Modelled from the spec: a tile carries its value together with the
exposed and flagged bits (the fields read by `serialize_board`). -/
structure Tile where
  value : TileValue
  exposed : Bool
  flagged : Bool
deriving DecidableEq, Repr

/-- Modelled from the spec: `GameState` is `InProgress | Won | Lost`. -/
inductive GameState where
  | InProgress
  | Won
  | Lost
deriving DecidableEq, Repr

/-- Modelled from the spec: the board engine owns a square grid of side
`size`, a target mine count, and the game state.  The grid is stored
row-major, row `x` and column `y`, as accessed by `get_tile`. -/
structure Minesweeper where
  size : Nat
  mine_count : Nat
  tiles : List (List Tile)
  state : GameState
deriving DecidableEq, Repr

namespace Minesweeper

/-- Modelled from the spec: query `Size() -> int`. -/
def get_size (g : Minesweeper) : Nat := g.size

/-- Modelled from the spec: query `State() -> GameState`. -/
def get_game_state (g : Minesweeper) : GameState := g.state

/-- Modelled from the spec: query `TileAt(x,y) -> Tile option`, `none`
when out of bounds. -/
def get_tile (g : Minesweeper) (x y : Nat) : Option Tile :=
  (g.tiles[x]?).bind fun row => row[y]?

end Minesweeper

/-- A tile is a mine exactly when its value is `bomb`. -/
def isMineTile (t : Tile) : Bool :=
  match t.value with
  | TileValue.bomb => true
  | TileValue.number _ => false

/-- The eight neighbor offsets of the implicit 8-connectivity. -/
def neighborOffsets : List (Int × Int) :=
  [(-1, -1), (-1, 0), (-1, 1), (0, -1), (0, 1), (1, -1), (1, 0), (1, 1)]

/-- Modelled from the spec: the up-to-8 neighboring cells of `(x, y)`
inside a grid of side `size` (edge and corner tiles have fewer). -/
def neighbors (size x y : Nat) : List (Nat × Nat) :=
  neighborOffsets.filterMap fun d =>
    let nx : Int := (x : Int) + d.1
    let ny : Int := (y : Int) + d.2
    if 0 ≤ nx ∧ 0 ≤ ny ∧ nx < (size : Int) ∧ ny < (size : Int) then
      some (nx.toNat, ny.toNat)
    else
      none

/-- Modelled from the spec: the `adjacent_count` of a cell is the number
of mines among its neighbors. -/
def countAdjacentMines (mines : List (Nat × Nat)) (size x y : Nat) : Nat :=
  ((neighbors size x y).filter fun p => mines.contains p).length

/-- Modelled from the spec: `NewWithMines` places mines at the given
coordinates and computes each adjacency count; all tiles start unexposed
and unflagged. -/
def boardWithMines (size : Nat) (mines : List (Nat × Nat)) : List (List Tile) :=
  (List.range size).map fun x =>
    (List.range size).map fun y =>
      if mines.contains (x, y) then
        { value := TileValue.bomb, exposed := false, flagged := false }
      else
        { value := TileValue.number (countAdjacentMines mines size x y),
          exposed := false, flagged := false }

/-- Apply `f` to the tile at row `x`, column `y` of the grid (identity
out of bounds). -/
def modifyTile (tiles : List (List Tile)) (x y : Nat) (f : Tile → Tile) :
    List (List Tile) :=
  tiles.mapIdx fun i row =>
    if i = x then row.mapIdx (fun j t => if j = y then f t else t) else row

/-- Expose the tile at `(x, y)`. -/
def exposeTile (tiles : List (List Tile)) (x y : Nat) : List (List Tile) :=
  modifyTile tiles x y fun t => { t with exposed := true }

/-- Modelled from the spec: every mine tile is exposed on a loss (a
complete loss reveal). -/
def exposeAllMines (tiles : List (List Tile)) : List (List Tile) :=
  tiles.map fun row => row.map fun t =>
    if isMineTile t then { t with exposed := true } else t

/-- Modelled from the spec: iterative flood fill with an explicit
work-list.  A popped cell that is unexposed and unflagged is exposed;
when its adjacency count is zero its neighbors are pushed.  The fuel
argument bounds the number of pops (the caller passes more than the
total number of possible pushes, so the fuel never runs out in use). -/
def floodFill (size : Nat) : Nat → List (List Tile) → List (Nat × Nat) → List (List Tile)
  | 0, tiles, _ => tiles
  | _ + 1, tiles, [] => tiles
  | fuel + 1, tiles, (x, y) :: rest =>
    match (tiles[x]?).bind fun row => row[y]? with
    | none => floodFill size fuel tiles rest
    | some t =>
      if t.exposed || t.flagged then
        floodFill size fuel tiles rest
      else
        match t.value with
        | TileValue.bomb => floodFill size fuel tiles rest
        | TileValue.number 0 =>
            floodFill size fuel (exposeTile tiles x y) (neighbors size x y ++ rest)
        | TileValue.number (_ + 1) =>
            floodFill size fuel (exposeTile tiles x y) rest

/-- Modelled from the spec: the win condition holds when every non-mine
tile is exposed. -/
def allSafeExposed (tiles : List (List Tile)) : Bool :=
  tiles.all fun row => row.all fun t => isMineTile t || t.exposed

namespace Minesweeper

/-- Modelled from the spec: `Reveal(x, y)`.  Fails with `OutOfBounds`
when a coordinate is at least `size`; is a no-op success when the game
is over or the tile already exposed; fails with `TileFlagged` on a
flagged tile; on a mine exposes all mines and sets the state to `Lost`;
otherwise flood fills from the tile and recomputes the win condition.
The error is a message string, as in the Rust signature
`Result<(), String>` used by `src/main.rs`. -/
def click_tile (g : Minesweeper) (x y : Nat) : Minesweeper × Option String :=
  if g.size ≤ x ∨ g.size ≤ y then
    (g, some "OutOfBounds")
  else if g.state ≠ GameState.InProgress then
    (g, none)
  else
    match g.get_tile x y with
    | none => (g, some "OutOfBounds")
    | some t =>
      if t.exposed then
        (g, none)
      else if t.flagged then
        (g, some "TileFlagged")
      else if isMineTile t then
        ({ g with tiles := exposeAllMines (exposeTile g.tiles x y),
                  state := GameState.Lost }, none)
      else
        let tiles := floodFill g.size (9 * g.size * g.size + 1) g.tiles [(x, y)]
        ({ g with tiles := tiles,
                  state := if allSafeExposed tiles then GameState.Won
                           else GameState.InProgress }, none)

/-- Modelled from the spec: `ToggleFlag(x, y)`.  Fails with
`OutOfBounds` out of range, with `GameOver` when the state is not
`InProgress`, with `TileExposed` on an exposed tile; otherwise flips the
flagged bit. -/
def toggle_flag (g : Minesweeper) (x y : Nat) : Minesweeper × Option String :=
  if g.size ≤ x ∨ g.size ≤ y then
    (g, some "OutOfBounds")
  else if g.state ≠ GameState.InProgress then
    (g, some "GameOver")
  else
    match g.get_tile x y with
    | none => (g, some "OutOfBounds")
    | some t =>
      if t.exposed then
        (g, some "TileExposed")
      else
        ({ g with tiles := modifyTile g.tiles x y fun u => { u with flagged := !u.flagged } },
         none)

/-- Modelled from the spec: `NewWithFirstClick(size, mineCount,
firstClick)` draws `mineCount` mine positions at random from the cells
other than `firstClick`; the draw is represented by the explicit
`mines` argument.  It then behaves as `NewWithMines` and immediately
performs the reveal from `firstClick`.  The caller in `src/main.rs`
stores the result directly inside `Some(..)`, so the constructor is
total (it returns a board, never a failure value). -/
def new_with_first_click (size mineCount : Nat) (firstClick : Nat × Nat)
    (mines : List (Nat × Nat)) : Minesweeper :=
  let g : Minesweeper :=
    { size := size, mine_count := mineCount,
      tiles := boardWithMines size mines, state := GameState.InProgress }
  (g.click_tile firstClick.1 firstClick.2).1

end Minesweeper

/-- The string produced for a `GameState` by the Rust `Debug` formatting
used in `src/main.rs` (`format` with the debug specifier). -/
def gameStateString : GameState → String
  | GameState.InProgress => "InProgress"
  | GameState.Won => "Won"
  | GameState.Lost => "Lost"

/-- The string stored in a `TileResponse` for an exposed tile in
`serialize_board`: `"bomb"` for a bomb, decimal rendering of the number
otherwise. -/
def tileValueString : TileValue → String
  | TileValue.bomb => "bomb"
  | TileValue.number n => Nat.repr n

/-- `TileResponse` of `src/main.rs`: per-tile exposed and flagged bits
and the optional value string (`none` when not exposed). -/
structure TileResponse where
  exposed : Bool
  flagged : Bool
  value : Option String
deriving DecidableEq, Repr

/-- The `TileResponse` built for one tile inside the loop of
`serialize_board`. -/
def serializeTile (t : Tile) : TileResponse :=
  { exposed := t.exposed,
    flagged := t.flagged,
    value := if t.exposed then some (tileValueString t.value) else none }

/-- `serialize_board` of `src/main.rs`: for each `x` and `y` below
`get_size`, when `get_tile` returns a tile, push its response. -/
def serialize_board (game : Minesweeper) : List (List TileResponse) :=
  (List.range game.get_size).map fun x =>
    (List.range game.get_size).filterMap fun y =>
      (game.get_tile x y).map serializeTile

/-- `create_empty_board_response` of `src/main.rs`: a `size` by `size`
grid of hidden tiles. -/
def create_empty_board_response (size : Nat) : List (List TileResponse) :=
  List.replicate size
    (List.replicate size { exposed := false, flagged := false, value := none })

/-- `GameInfo` of `src/main.rs`: the stored session, a pending one when
`game` is `none`. -/
structure GameInfo where
  game : Option Minesweeper
  size : Nat
  mine_count : Nat
  first_click_made : Bool
deriving DecidableEq, Repr

/-- The `HashMap<String, GameInfo>` behind the mutex, modelled as an
association list with at most one binding per key. -/
def GameStorage : Type := List (String × GameInfo)

/-- `HashMap::get`: the value bound to `id`, if any. -/
def storeLookup : GameStorage → String → Option GameInfo
  | [], _ => none
  | (k, v) :: rest, id => if k = id then some v else storeLookup rest id

/-- `HashMap::insert`: bind `id` to `info`, replacing an existing
binding for the same key. -/
def storeInsert : GameStorage → String → GameInfo → GameStorage
  | [], id, info => [(id, info)]
  | (k, v) :: rest, id, info =>
    if k = id then (id, info) :: rest else (k, v) :: storeInsert rest id info

/-- The HTTP status codes produced by the handlers of `src/main.rs`. -/
inductive StatusCode where
  | notFound
  | internalServerError
deriving DecidableEq, Repr

/-- `GameResponse` of `src/main.rs`. -/
structure GameResponse where
  game_id : String
  size : Nat
  mine_count : Nat
  game_state : String
  board : List (List TileResponse)
deriving DecidableEq, Repr

/-- `ActionResponse` of `src/main.rs`. -/
structure ActionResponse where
  success : Bool
  message : String
  game_state : String
  board : List (List TileResponse)
deriving DecidableEq, Repr

/-- The characters of the `Alphanumeric` distribution of the `rand`
crate: uppercase letters, lowercase letters, digits. -/
def alphanumericChars : List Char :=
  "ABCDEFGHIJKLMNOPQRSTUVWXYZabcdefghijklmnopqrstuvwxyz0123456789".toList

/-- `generate_game_id` of `src/main.rs`: take 8 characters from an
infinite stream of alphanumeric samples.  The random stream is the
explicit `samples` argument; each sample picks one of the 62 characters
of the distribution. -/
def generate_game_id (samples : Nat → Nat) : String :=
  String.mk ((List.range 8).map fun i => alphanumericChars.getD (samples i % 62) 'A')

/-- `new_game` of `src/main.rs`: store a placeholder session (no board,
`first_click_made` false) under the freshly generated id and answer
with the empty board.  The generated id is the explicit `game_id`
argument; the handler always succeeds. -/
def new_game (games : GameStorage) (game_id : String) (req_size req_mine_count : Nat) :
    GameResponse × GameStorage :=
  let game_info : GameInfo :=
    { game := none, size := req_size, mine_count := req_mine_count,
      first_click_made := false }
  let response : GameResponse :=
    { game_id := game_id, size := req_size, mine_count := req_mine_count,
      game_state := "InProgress",
      board := create_empty_board_response req_size }
  (response, storeInsert games game_id game_info)

/-- `get_game_state` of `src/main.rs`: `NOT_FOUND` for an unknown id;
for an active session the serialized board and debug-formatted state;
for a pending session the empty board and `InProgress`. -/
def get_game_state (games : GameStorage) (game_id : String) :
    Except StatusCode GameResponse :=
  match storeLookup games game_id with
  | none => Except.error StatusCode.notFound
  | some game_info =>
    let sb : String × List (List TileResponse) :=
      match game_info.game with
      | some game => (gameStateString game.get_game_state, serialize_board game)
      | none => ("InProgress", create_empty_board_response game_info.size)
    Except.ok
      { game_id := game_id, size := game_info.size,
        mine_count := game_info.mine_count,
        game_state := sb.1, board := sb.2 }

/-- `click_tile` of `src/main.rs`: `NOT_FOUND` for an unknown id.  On
the first click, build the engine with `new_with_first_click` (the
random mine draw is the explicit `mines` argument), mark
`first_click_made`, and answer success.  Afterwards, delegate to the
engine reveal, answering `INTERNAL_SERVER_ERROR` when the engine is
absent.  The updated storage is returned alongside the response. -/
def click_tile (games : GameStorage) (game_id : String) (x y : Nat)
    (mines : List (Nat × Nat)) :
    Except StatusCode ActionResponse × GameStorage :=
  match storeLookup games game_id with
  | none => (Except.error StatusCode.notFound, games)
  | some game_info =>
    if !game_info.first_click_made then
      let game := Minesweeper.new_with_first_click game_info.size
        game_info.mine_count (x, y) mines
      let game_info2 := { game_info with game := some game, first_click_made := true }
      let response : ActionResponse :=
        { success := true,
          message := "First click processed! Game board generated.",
          game_state := gameStateString game.get_game_state,
          board := serialize_board game }
      (Except.ok response, storeInsert games game_id game_info2)
    else
      match game_info.game with
      | none => (Except.error StatusCode.internalServerError, games)
      | some game =>
        let result := game.click_tile x y
        let response : ActionResponse :=
          { success := result.2.isNone,
            message := result.2.getD "Success",
            game_state := gameStateString result.1.get_game_state,
            board := serialize_board result.1 }
        (Except.ok response,
         storeInsert games game_id { game_info with game := some result.1 })

/-- `toggle_flag` of `src/main.rs`: `NOT_FOUND` for an unknown id; a
non-success answer with the empty board before the first click;
afterwards delegate to the engine flag toggle, answering
`INTERNAL_SERVER_ERROR` when the engine is absent. -/
def toggle_flag (games : GameStorage) (game_id : String) (x y : Nat) :
    Except StatusCode ActionResponse × GameStorage :=
  match storeLookup games game_id with
  | none => (Except.error StatusCode.notFound, games)
  | some game_info =>
    if !game_info.first_click_made then
      let response : ActionResponse :=
        { success := false,
          message := "Make your first click before flagging!",
          game_state := "InProgress",
          board := create_empty_board_response game_info.size }
      (Except.ok response, games)
    else
      match game_info.game with
      | none => (Except.error StatusCode.internalServerError, games)
      | some game =>
        let result := game.toggle_flag x y
        let response : ActionResponse :=
          { success := result.2.isNone,
            message := result.2.getD "Success",
            game_state := gameStateString result.1.get_game_state,
            board := serialize_board result.1 }
        (Except.ok response,
         storeInsert games game_id { game_info with game := some result.1 })

/-- The success bit of a handler answer, when the answer is not an
error status. -/
def actionSuccess (r : Except StatusCode ActionResponse × GameStorage) : Option Bool :=
  match r.1 with
  | Except.ok resp => some resp.success
  | Except.error _ => none

/-- A concrete active 1 by 1 board used as a witness input: its only
tile is an exposed zero. -/
def tinyActiveBoard : Minesweeper :=
  { size := 1, mine_count := 0,
    tiles := [[{ value := TileValue.number 0, exposed := true, flagged := false }]],
    state := GameState.InProgress }

/-- The part of a tile visible through the snapshot: the exposed and
flagged bits, and the value only when exposed. -/
def tileObs (t : Tile) : Bool × Bool × Option TileValue :=
  (t.exposed, t.flagged, if t.exposed then some t.value else none)

/-- One storage-changing handler call of `src/main.rs` (`get_game_state`
does not touch the storage). -/
inductive RegistryStep : GameStorage → GameStorage → Prop
  | newGame (games : GameStorage) (id : String) (size mc : Nat) :
      RegistryStep games (new_game games id size mc).2
  | clickTile (games : GameStorage) (id : String) (x y : Nat) (mines : List (Nat × Nat)) :
      RegistryStep games (click_tile games id x y mines).2
  | toggleFlag (games : GameStorage) (id : String) (x y : Nat) :
      RegistryStep games (toggle_flag games id x y).2

/-- A storage reachable from the empty map by handler calls. -/
def ReachableStorage (games : GameStorage) : Prop :=
  Relation.ReflTransGen RegistryStep [] games

/-- Every stored session has its engine present exactly when
`first_click_made` is set. -/
def storageInv (games : GameStorage) : Prop :=
  ∀ id info, storeLookup games id = some info →
    (info.first_click_made = true ↔ info.game.isSome = true)

theorem storeLookup_insert (s : GameStorage) (k k' : String) (v : GameInfo) :
    storeLookup (storeInsert s k v) k' =
      if k = k' then some v else storeLookup s k' := by
  induction s with
  | nil => simp [storeInsert, storeLookup]
  | cons hd tl ih =>
    obtain ⟨a, b⟩ := hd
    by_cases hak : a = k
    · subst hak
      by_cases hk : a = k' <;> simp [storeInsert, storeLookup, hk]
    · by_cases hk : a = k'
      · subst hk
        have : ¬ k = a := fun h => hak h.symm
        simp [storeInsert, storeLookup, hak, this]
      · simp [storeInsert, storeLookup, hak, hk, ih]

theorem serializeTile_congr {t1 t2 : Tile} (h : tileObs t1 = tileObs t2) :
    serializeTile t1 = serializeTile t2 := by
  obtain ⟨v1, e1, f1⟩ := t1
  obtain ⟨v2, e2, f2⟩ := t2
  simp only [tileObs, Prod.mk.injEq] at h
  obtain ⟨he, hf, hv⟩ := h
  subst he; subst hf
  cases e1 with
  | false => simp [serializeTile]
  | true =>
    simp only [if_pos, reduceIte, Option.some.injEq] at hv
    simp [serializeTile, hv]

theorem storageInv_nil : storageInv [] := by
  intro id info h
  cases h

theorem storageInv_insert {games : GameStorage} {id : String} {info : GameInfo}
    (hg : storageInv games)
    (hinfo : info.first_click_made = true ↔ info.game.isSome = true) :
    storageInv (storeInsert games id info) := by
  intro id' info' h
  rw [storeLookup_insert] at h
  split at h
  · cases h
    exact hinfo
  · exact hg id' info' h

theorem storageInv_step {g1 g2 : GameStorage} (h : RegistryStep g1 g2)
    (hinv : storageInv g1) : storageInv g2 := by
  cases h with
  | newGame id size mc =>
    exact storageInv_insert hinv (by simp)
  | clickTile id x y mines =>
    show storageInv (click_tile g1 id x y mines).2
    unfold click_tile
    cases hl : storeLookup g1 id with
    | none => exact hinv
    | some info =>
      cases hf : info.first_click_made with
      | false =>
        simp only [hf, Bool.not_false, if_true]
        exact storageInv_insert hinv (by simp)
      | true =>
        simp only [hf, Bool.not_true, if_false]
        cases hg : info.game with
        | none => exact hinv
        | some game =>
          exact storageInv_insert hinv (by simp [hf])
  | toggleFlag id x y =>
    show storageInv (toggle_flag g1 id x y).2
    unfold toggle_flag
    cases hl : storeLookup g1 id with
    | none => exact hinv
    | some info =>
      cases hf : info.first_click_made with
      | false =>
        simp only [hf, Bool.not_false, if_true]
        exact hinv
      | true =>
        simp only [hf, Bool.not_true, if_false]
        cases hg : info.game with
        | none => exact hinv
        | some game =>
          exact storageInv_insert hinv (by simp [hf])

theorem storageInv_reachable {games : GameStorage} (h : ReachableStorage games) :
    storageInv games := by
  induction h with
  | refl => exact storageInv_nil
  | tail _ hstep ih => exact storageInv_step hstep ih

/-- C2 (amended): `new_game` performs no validation of the mine count
against the board area: for every `size` and `mine_count` the request
succeeds, answers the pending response, and stores the pending session
(the lower bound `0 ≤ mine_count` holds trivially for the unsigned
type). -/
theorem new_game_stores_unconditionally (games : GameStorage) (id : String)
    (size mc : Nat) :
    (new_game games id size mc).1 =
      { game_id := id, size := size, mine_count := mc,
        game_state := "InProgress",
        board := create_empty_board_response size } ∧
    storeLookup (new_game games id size mc).2 id =
      some { game := none, size := size, mine_count := mc,
             first_click_made := false } := by
  refine ⟨rfl, ?_⟩
  show storeLookup (storeInsert games id _) id = _
  rw [storeLookup_insert]
  simp

/-- C2 (counterexample): with `size = 1` and `mine_count = 5` the bound
`mine_count < size * size` is violated, yet `new_game` stores the
session anyway — no `InvalidConfig` failure exists in the handler. -/
theorem new_game_skips_validation_cex :
    ¬ (5 < 1 * 1) ∧
    storeLookup (new_game [] "g" 1 5).2 "g" =
      some { game := none, size := 1, mine_count := 5,
             first_click_made := false } := by
  exact ⟨by decide, by decide⟩

/-- C3 (amended): `generate_game_id` produces a fixed-length (8
character) alphanumeric string, but no uniqueness check is made at
creation time: the freshly generated id is inserted directly, so a
colliding id replaces the existing session. -/
theorem generate_game_id_shape (samples : Nat → Nat) :
    (generate_game_id samples).length = 8 ∧
    ∀ c ∈ (generate_game_id samples).toList, c.isAlphanum = true := by
  constructor
  · simp [generate_game_id, String.length]
  · intro c hc
    simp only [generate_game_id, String.toList, String.mk, List.mem_map,
      List.mem_range] at hc
    obtain ⟨i, _, rfl⟩ := hc
    have hlt : samples i % 62 < 62 := Nat.mod_lt _ (by norm_num)
    have hall : ∀ j, j < 62 → (alphanumericChars.getD j 'A').isAlphanum = true := by
      decide
    exact hall _ hlt

/-- C3 (witness): on the all-zero sample stream the id is `AAAAAAAA`
and its first character is alphanumeric. -/
theorem generate_game_id_shape_witness :
    'A' ∈ (generate_game_id fun _ => 0).toList ∧ 'A'.isAlphanum = true :=
  ⟨by decide, (generate_game_id_shape fun _ => 0).2 'A' (by decide)⟩

/-- C3 (counterexample): the id `AAAAAAAA` is a possible output of
`generate_game_id` (all-zero samples); creating a new session under it
while a session with that id exists replaces the stored session, so
creation does overwrite an existing session in the registry map. -/
theorem new_game_overwrites_existing_cex :
    generate_game_id (fun _ => 0) = "AAAAAAAA" ∧
    storeLookup
      (new_game
        [("AAAAAAAA",
          { game := none, size := 5, mine_count := 3, first_click_made := false })]
        (generate_game_id fun _ => 0) 3 1).2 "AAAAAAAA" =
      some { game := none, size := 3, mine_count := 1, first_click_made := false } ∧
    ({ game := none, size := 3, mine_count := 1, first_click_made := false } : GameInfo) ≠
      { game := none, size := 5, mine_count := 3, first_click_made := false } := by
  exact ⟨by decide, by decide, by decide⟩

/-- C6: flagging on a still-pending session is answered with a
non-success result (the `GameNotStarted` condition, message `Make your
first click before flagging!`), the stored registry state is unchanged,
and the returned snapshot is the all-hidden board. -/
theorem toggle_flag_pending_rejected (games : GameStorage) (id : String)
    (info : GameInfo) (x y : Nat)
    (h1 : storeLookup games id = some info)
    (h2 : info.first_click_made = false) :
    toggle_flag games id x y =
      (Except.ok
        { success := false,
          message := "Make your first click before flagging!",
          game_state := "InProgress",
          board := create_empty_board_response info.size }, games) ∧
    ∀ row ∈ create_empty_board_response info.size, ∀ t ∈ row,
      t = { exposed := false, flagged := false, value := none } := by
  constructor
  · unfold toggle_flag
    rw [h1]
    simp [h2]
  · intro row hrow t ht
    rw [create_empty_board_response] at hrow
    rw [List.eq_of_mem_replicate hrow] at ht
    exact List.eq_of_mem_replicate ht

/-- C6 (witness): a freshly created pending session of size 2 rejects
flagging with the unchanged storage and the hidden 2 by 2 board. -/
theorem toggle_flag_pending_rejected_witness :
    toggle_flag (new_game [] "g" 2 1).2 "g" 0 1 =
      (Except.ok
        { success := false,
          message := "Make your first click before flagging!",
          game_state := "InProgress",
          board := create_empty_board_response 2 }, (new_game [] "g" 2 1).2) :=
  (toggle_flag_pending_rejected (new_game [] "g" 2 1).2 "g"
    { game := none, size := 2, mine_count := 1, first_click_made := false }
    0 1 (by decide) rfl).1

/-- C7: every operation addressed at an id absent from the registry —
state fetch, reveal, and flag — fails with `NOT_FOUND` and leaves the
registry map unchanged. -/
theorem unknown_session_not_found (games : GameStorage) (id : String)
    (x y : Nat) (mines : List (Nat × Nat))
    (h : storeLookup games id = none) :
    get_game_state games id = Except.error StatusCode.notFound ∧
    click_tile games id x y mines = (Except.error StatusCode.notFound, games) ∧
    toggle_flag games id x y = (Except.error StatusCode.notFound, games) := by
  refine ⟨?_, ?_, ?_⟩
  · unfold get_game_state
    rw [h]
  · unfold click_tile
    rw [h]
  · unfold toggle_flag
    rw [h]

/-- C1: the snapshot never carries a value for an unexposed tile, and
the snapshot is a function of the sizes together with the per-tile
observations (exposed bit, flagged bit, value of exposed tiles only):
two boards agreeing on those serialize identically, so the mine layout
of unexposed tiles is not observable through the snapshot. -/
theorem serialize_board_info_hiding :
    (∀ (g : Minesweeper), ∀ row ∈ serialize_board g, ∀ r ∈ row,
        r.exposed = false → r.value = none) ∧
    (∀ (g1 g2 : Minesweeper), g1.size = g2.size →
        (∀ x y, (g1.get_tile x y).map tileObs = (g2.get_tile x y).map tileObs) →
        serialize_board g1 = serialize_board g2) := by
  constructor
  · intro g row hrow r hr hexp
    simp only [serialize_board, List.mem_map, List.mem_range] at hrow
    obtain ⟨x, _, rfl⟩ := hrow
    simp only [List.mem_filterMap, List.mem_range] at hr
    obtain ⟨y, _, hy⟩ := hr
    cases ht : g.get_tile x y with
    | none => rw [ht] at hy; cases hy
    | some t =>
      rw [ht] at hy
      cases hy
      rw [serializeTile] at hexp ⊢
      simp only at hexp
      simp [hexp]
  · intro g1 g2 hsize hobs
    unfold serialize_board Minesweeper.get_size
    rw [hsize]
    apply List.map_congr_left
    intro x _
    apply List.filterMap_congr
    intro y _
    have h := hobs x y
    cases h1 : g1.get_tile x y with
    | none =>
      rw [h1] at h
      cases h2 : g2.get_tile x y with
      | none => rfl
      | some t2 => rw [h2] at h; cases h
    | some t1 =>
      rw [h1] at h
      cases h2 : g2.get_tile x y with
      | none => rw [h2] at h; cases h
      | some t2 =>
        rw [h2] at h
        have ht : tileObs t1 = tileObs t2 := by simpa using h
        simp [serializeTile_congr ht]

/-- C1 (witness): a board with one hidden mine and a board with one
hidden safe tile have identical snapshots, and the hidden tile carries
no value. -/
theorem serialize_board_info_hiding_witness :
    (({ exposed := false, flagged := false, value := none } : TileResponse).value
        = none) ∧
    serialize_board
      { size := 1, mine_count := 1,
        tiles := [[{ value := TileValue.bomb, exposed := false, flagged := false }]],
        state := GameState.InProgress } =
    serialize_board
      { size := 1, mine_count := 0,
        tiles := [[{ value := TileValue.number 0, exposed := false, flagged := false }]],
        state := GameState.InProgress } := by
  constructor
  · exact serialize_board_info_hiding.1
      { size := 1, mine_count := 1,
        tiles := [[{ value := TileValue.bomb, exposed := false, flagged := false }]],
        state := GameState.InProgress }
      [{ exposed := false, flagged := false, value := none }] (by decide)
      { exposed := false, flagged := false, value := none } (by decide) rfl
  · exact serialize_board_info_hiding.2
      { size := 1, mine_count := 1,
        tiles := [[{ value := TileValue.bomb, exposed := false, flagged := false }]],
        state := GameState.InProgress }
      { size := 1, mine_count := 0,
        tiles := [[{ value := TileValue.number 0, exposed := false, flagged := false }]],
        state := GameState.InProgress }
      rfl
      (by
        intro x y
        match x, y with
        | 0, 0 => rfl
        | 0, _ + 1 => rfl
        | _ + 1, _ => rfl)

/-- C8: every exposed entry of the snapshot comes from an exposed tile
of the board and carries `"bomb"` for a mine and the decimal rendering
of the adjacency count otherwise, and the reported game state string is
one of `InProgress`, `Won`, `Lost`. -/
theorem serialize_board_exposed_encoding :
    (∀ (g : Minesweeper), ∀ row ∈ serialize_board g, ∀ r ∈ row,
        r.exposed = true →
        ∃ x y t, g.get_tile x y = some t ∧ t.exposed = true ∧
          r.flagged = t.flagged ∧
          r.value = some (match t.value with
            | TileValue.bomb => "bomb"
            | TileValue.number n => Nat.repr n)) ∧
    (∀ (g : Minesweeper),
        gameStateString g.get_game_state ∈ ["InProgress", "Won", "Lost"]) := by
  constructor
  · intro g row hrow r hr hexp
    simp only [serialize_board, List.mem_map, List.mem_range] at hrow
    obtain ⟨x, _, rfl⟩ := hrow
    simp only [List.mem_filterMap, List.mem_range] at hr
    obtain ⟨y, _, hy⟩ := hr
    cases ht : g.get_tile x y with
    | none => rw [ht] at hy; cases hy
    | some t =>
      rw [ht] at hy
      cases hy
      rw [serializeTile] at hexp ⊢
      simp only at hexp
      refine ⟨x, y, t, ht, hexp, rfl, ?_⟩
      simp only [hexp, if_true]
      cases t.value <;> simp [tileValueString]
  · intro g
    cases hs : g.get_game_state <;> simp [gameStateString]

/-- C8 (witness): on a lost 1 by 1 board with an exposed mine the
snapshot entry carries `"bomb"` and the state string is in the set. -/
theorem serialize_board_exposed_encoding_witness :
    (∃ x y t,
      Minesweeper.get_tile
        { size := 1, mine_count := 1,
          tiles := [[{ value := TileValue.bomb, exposed := true, flagged := false }]],
          state := GameState.Lost } x y = some t ∧ t.exposed = true ∧
      ({ exposed := true, flagged := false, value := some "bomb" } :
          TileResponse).flagged = t.flagged ∧
      ({ exposed := true, flagged := false, value := some "bomb" } :
          TileResponse).value = some (match t.value with
        | TileValue.bomb => "bomb"
        | TileValue.number n => Nat.repr n)) ∧
    gameStateString
      (Minesweeper.get_game_state
        { size := 1, mine_count := 1,
          tiles := [[{ value := TileValue.bomb, exposed := true, flagged := false }]],
          state := GameState.Lost }) ∈ ["InProgress", "Won", "Lost"] :=
  ⟨serialize_board_exposed_encoding.1
      { size := 1, mine_count := 1,
        tiles := [[{ value := TileValue.bomb, exposed := true, flagged := false }]],
        state := GameState.Lost }
      [{ exposed := true, flagged := false, value := some "bomb" }] (by decide)
      { exposed := true, flagged := false, value := some "bomb" } (by decide) rfl,
    serialize_board_exposed_encoding.2
      { size := 1, mine_count := 1,
        tiles := [[{ value := TileValue.bomb, exposed := true, flagged := false }]],
        state := GameState.Lost }⟩

/-- C9: the response for a newly created session carries the
`InProgress` state and the empty board, the state fetch of any still
pending session answers the same shape, and the empty board is exactly
`size` rows of `size` hidden tiles (unexposed, unflagged, no value). -/
theorem new_session_snapshot (games : GameStorage) (id : String) (size mc : Nat)
    (games2 : GameStorage) (id2 : String) (info : GameInfo)
    (h1 : storeLookup games2 id2 = some info) (h2 : info.game = none) :
    (new_game games id size mc).1 =
      { game_id := id, size := size, mine_count := mc,
        game_state := "InProgress",
        board := create_empty_board_response size } ∧
    get_game_state games2 id2 = Except.ok
      { game_id := id2, size := info.size, mine_count := info.mine_count,
        game_state := "InProgress",
        board := create_empty_board_response info.size } ∧
    (create_empty_board_response size).length = size ∧
    (∀ row ∈ create_empty_board_response size, row.length = size ∧
       ∀ t ∈ row, t = { exposed := false, flagged := false, value := none }) := by
  refine ⟨rfl, ?_, ?_, ?_⟩
  · unfold get_game_state
    rw [h1]
    simp [h2]
  · simp [create_empty_board_response]
  · intro row hrow
    rw [create_empty_board_response] at hrow
    rw [List.eq_of_mem_replicate hrow]
    exact ⟨by simp, fun t ht => List.eq_of_mem_replicate ht⟩

/-- C9 (witness): creating a session of size 2 and fetching it before
any reveal both answer the hidden 2 by 2 board with `InProgress`. -/
theorem new_session_snapshot_witness :
    (new_game [] "g" 2 1).1 =
      { game_id := "g", size := 2, mine_count := 1,
        game_state := "InProgress",
        board := create_empty_board_response 2 } ∧
    get_game_state (new_game [] "g" 2 1).2 "g" = Except.ok
      { game_id := "g", size := 2, mine_count := 1,
        game_state := "InProgress",
        board := create_empty_board_response 2 } :=
  ⟨(new_session_snapshot [] "g" 2 1 (new_game [] "g" 2 1).2 "g"
      { game := none, size := 2, mine_count := 1, first_click_made := false }
      (by decide) rfl).1,
   (new_session_snapshot [] "g" 2 1 (new_game [] "g" 2 1).2 "g"
      { game := none, size := 2, mine_count := 1, first_click_made := false }
      (by decide) rfl).2.1⟩

/-- C7 (witness): on the empty registry, all three operations answer
`NOT_FOUND` without touching the map. -/
theorem unknown_session_not_found_witness :
    get_game_state [] "missing" = Except.error StatusCode.notFound ∧
    click_tile [] "missing" 0 0 [] = (Except.error StatusCode.notFound, []) ∧
    toggle_flag [] "missing" 0 0 = (Except.error StatusCode.notFound, []) :=
  unknown_session_not_found [] "missing" 0 0 [] rfl

/-- C4 (amended): a reveal on a pending session always converts it to
active via `new_with_first_click` with the first click already applied,
and always answers success — the handler has no failure path for the
stored configuration, so no `InvalidConfig` failure is ever produced. -/
theorem click_tile_pending_first_click (games : GameStorage) (id : String)
    (info : GameInfo) (x y : Nat) (mines : List (Nat × Nat))
    (h1 : storeLookup games id = some info)
    (h2 : info.first_click_made = false) :
    click_tile games id x y mines =
      (Except.ok
        { success := true,
          message := "First click processed! Game board generated.",
          game_state := gameStateString
            (Minesweeper.new_with_first_click info.size info.mine_count
              (x, y) mines).get_game_state,
          board := serialize_board
            (Minesweeper.new_with_first_click info.size info.mine_count
              (x, y) mines) },
       storeInsert games id
         { info with
             game := some (Minesweeper.new_with_first_click info.size
               info.mine_count (x, y) mines),
             first_click_made := true }) := by
  unfold click_tile
  rw [h1]
  simp [h2]

/-- C4 (witness): the first click on a freshly created 2 by 2 session
converts it to an active session with the click applied. -/
theorem click_tile_pending_first_click_witness :
    click_tile (new_game [] "g" 2 1).2 "g" 0 0 [(1, 1)] =
      (Except.ok
        { success := true,
          message := "First click processed! Game board generated.",
          game_state := gameStateString
            (Minesweeper.new_with_first_click 2 1 (0, 0) [(1, 1)]).get_game_state,
          board := serialize_board
            (Minesweeper.new_with_first_click 2 1 (0, 0) [(1, 1)]) },
       storeInsert (new_game [] "g" 2 1).2 "g"
         { game := some (Minesweeper.new_with_first_click 2 1 (0, 0) [(1, 1)]),
           size := 2, mine_count := 1, first_click_made := true }) :=
  click_tile_pending_first_click (new_game [] "g" 2 1).2 "g"
    { game := none, size := 2, mine_count := 1, first_click_made := false }
    0 0 [(1, 1)] (by decide) rfl

/-- C4 (counterexample): a pending session stored with the invalid
configuration `size = 2`, `mine_count = 10` is revealed with a
success answer — the reveal does not fail with `InvalidConfig`. -/
theorem click_tile_pending_invalid_config_cex :
    ¬ (10 < 2 * 2) ∧
    actionSuccess (click_tile (new_game [] "g" 2 10).2 "g" 0 0 []) = some true := by
  exact ⟨by decide, by decide⟩

/-- C5 (amended): for an active session the reveal of a coordinate at
or beyond the board side fails with `OutOfBounds` and changes nothing,
but the first reveal on a pending session has no bounds check at all
and answers success. -/
theorem click_tile_oob_active (games : GameStorage) (id : String)
    (info : GameInfo) (g : Minesweeper) (x y : Nat) (mines : List (Nat × Nat))
    (h1 : storeLookup games id = some info)
    (h2 : info.first_click_made = true)
    (h3 : info.game = some g)
    (h4 : g.size ≤ x ∨ g.size ≤ y) :
    click_tile games id x y mines =
      (Except.ok
        { success := false,
          message := "OutOfBounds",
          game_state := gameStateString g.get_game_state,
          board := serialize_board g },
       storeInsert games id { info with game := some g }) := by
  unfold click_tile
  rw [h1]
  rcases h4 with h4 | h4 <;>
    simp [h2, h3, Minesweeper.click_tile, h4]

/-- C5 (witness): revealing column 3 of an active 1 by 1 session is
rejected with `OutOfBounds`. -/
theorem click_tile_oob_active_witness :
    click_tile
      [("g", { game := some tinyActiveBoard, size := 1, mine_count := 0,
               first_click_made := true })] "g" 3 0 [] =
      (Except.ok
        { success := false,
          message := "OutOfBounds",
          game_state := gameStateString tinyActiveBoard.get_game_state,
          board := serialize_board tinyActiveBoard },
       storeInsert
         [("g", { game := some tinyActiveBoard, size := 1, mine_count := 0,
                  first_click_made := true })] "g"
         { game := some tinyActiveBoard, size := 1, mine_count := 0,
           first_click_made := true }) :=
  click_tile_oob_active
    [("g", { game := some tinyActiveBoard, size := 1, mine_count := 0,
             first_click_made := true })] "g"
    { game := some tinyActiveBoard, size := 1, mine_count := 0,
      first_click_made := true }
    tinyActiveBoard 3 0 [] (by decide) rfl rfl (Or.inl (by decide))

/-- C5 (counterexample): on a pending session of size 3, revealing the
out-of-bounds coordinate (5, 5) answers success instead of failing
with `OutOfBounds`. -/
theorem click_tile_pending_oob_cex :
    (3 ≤ 5 ∨ 3 ≤ 5) ∧
    actionSuccess (click_tile (new_game [] "g" 3 1).2 "g" 5 5 [(0, 0)]) = some true := by
  exact ⟨Or.inl (by decide), by decide⟩

/-- C10: in every registry reachable through the handler operations,
`first_click_made` is set exactly when the engine is present; hence the
`INTERNAL_SERVER_ERROR` branches of `click_tile` and `toggle_flag`,
which fire when the engine is absent after the first click, never
answer. -/
theorem registry_first_click_invariant (games : GameStorage)
    (h : ReachableStorage games) :
    storageInv games ∧
    (∀ (id : String) (x y : Nat) (mines : List (Nat × Nat)),
       (click_tile games id x y mines).1 ≠
         Except.error StatusCode.internalServerError) ∧
    (∀ (id : String) (x y : Nat),
       (toggle_flag games id x y).1 ≠
         Except.error StatusCode.internalServerError) := by
  have hinv := storageInv_reachable h
  refine ⟨hinv, ?_, ?_⟩
  · intro id x y mines
    unfold click_tile
    cases hl : storeLookup games id with
    | none => simp
    | some info =>
      cases hf : info.first_click_made with
      | false => simp [hf]
      | true =>
        have hs := (hinv id info hl).mp hf
        cases hg : info.game with
        | none => rw [hg] at hs; simp at hs
        | some g => simp [hf, hg]
  · intro id x y
    unfold toggle_flag
    cases hl : storeLookup games id with
    | none => simp
    | some info =>
      cases hf : info.first_click_made with
      | false => simp [hf]
      | true =>
        have hs := (hinv id info hl).mp hf
        cases hg : info.game with
        | none => rw [hg] at hs; simp at hs
        | some g => simp [hf, hg]

/-- C10 (witness): after creating a session, a click on it does not
answer the internal error status. -/
theorem registry_first_click_invariant_witness :
    (click_tile (new_game [] "g" 3 1).2 "g" 1 1 [(0, 0)]).1 ≠
      Except.error StatusCode.internalServerError :=
  (registry_first_click_invariant (new_game [] "g" 3 1).2
    (Relation.ReflTransGen.single (RegistryStep.newGame [] "g" 3 1))).2.1
    "g" 1 1 [(0, 0)]
